import Mathlib

/-!
Shallow embedding of the Text2SQL API repository.

The repository manages database connections keyed by a formatted string,
inspects schemas per dialect (SQLite, PostgreSQL, MySQL), executes SQL
through cached connections, and builds a fixed prompt for an external
generative model.  Database drivers, cursors and the generative model are
opaque to the program, so they enter the embedding as oracle parameters;
everything the program itself computes (keys, cache updates, error
wrapping, schema text formatting, the prompt) is translated directly from
the Python source.
-/

namespace Text2Sql

/-- The `db_data` dictionary produced by `DBConfig.dict()`: `db_type` and
`db_name` are required strings, the rest are optional. -/
structure DbData where
  db_type : String
  db_name : String
  db_host : Option String := none
  db_user : Option String := none
  db_password : Option String := none
  db_port : Option String := none
deriving DecidableEq, Repr

/-- Python `f"{x}"` on an `Optional[str]`: `None` prints as `"None"`. -/
def pyStrOpt : Option String → String
  | some s => s
  | none => "None"

/-- `conn_key = f"{db_type}_{db_data.get('db_name')}_{db_data.get('db_host')}"`
from `DatabaseManager.get_connection`. -/
def conn_key (d : DbData) : String :=
  d.db_type ++ "_" ++ d.db_name ++ "_" ++ pyStrOpt d.db_host

/-- The Python exceptions the modelled code can raise. -/
inductive PyErr where
  | connectionError (msg : String)
  | keyError (key : String)
  | attributeError (msg : String)
  | valueError (msg : String)
  | exc (msg : String)
deriving DecidableEq, Repr

/-- Python `str(e)` for each modelled exception; `str(KeyError(k))` is the
`repr` of the key, hence the quotes. -/
def pyStr : PyErr → String
  | .connectionError m => m
  | .keyError k => "\x27" ++ k ++ "\x27"
  | .attributeError m => m
  | .valueError m => m
  | .exc m => m

/-- The mutable state of a `DatabaseManager`: the `connections` dict
(insertion-ordered association list; a value `none` models a cached Python
`None`) plus a counter handing out identities for live driver connections. -/
structure DBState where
  connections : List (String × Option Nat) := []
  nextId : Nat := 0
deriving DecidableEq, Repr

/-- Dictionary lookup `connections[k]` / `k in connections`. -/
def lookupConn (k : String) : List (String × Option Nat) → Option (Option Nat)
  | [] => none
  | (k2, v) :: rest => if k2 = k then some v else lookupConn k rest

/-- Dictionary assignment `connections[k] = v`. -/
def storeConn (k : String) (v : Option Nat) :
    List (String × Option Nat) → List (String × Option Nat)
  | [] => [(k, v)]
  | (k2, v2) :: rest =>
      if k2 = k then (k2, v) :: rest else (k2, v2) :: storeConn k v rest

/-- The third-party driver libraries (`sqlite3.connect`, `psycopg2.connect`,
`mysql.connector.connect`), opaque to the program: for a configuration they
either hand back a live connection or raise with some message. -/
abbrev Driver : Type := DbData → Except String Unit

/-- `DatabaseManager._create_connection`: for the three recognised
`db_type` values it calls the driver (wrapping any driver exception in
`ConnectionError("Failed to connect to database: ...")`, and a success
allocates a fresh connection identity); any other `db_type` falls through
every branch and returns Python `None`. -/
def _create_connection (drv : Driver) (d : DbData) (st : DBState) :
    Except PyErr (Option Nat × DBState) :=
  if d.db_type = "SQLite" ∨ d.db_type = "PostgreSQL" ∨ d.db_type = "MySQL" then
    match drv d with
    | .ok _ => .ok (some st.nextId, { st with nextId := st.nextId + 1 })
    | .error e => .error (.connectionError ("Failed to connect to database: " ++ e))
  else
    .ok (none, st)

/-- The `try` part of `DatabaseManager.get_connection`: create and store the
connection if the key is absent, then run the `with`-body on the yielded
value.  The state records any successful insertion even when the body then
fails. -/
def acquireAndRun (drv : Driver) (d : DbData) (st : DBState)
    (body : Option Nat → Except PyErr α) : DBState × Except PyErr α :=
  let key := conn_key d
  match lookupConn key st.connections with
  | some v => (st, body v)
  | none =>
      match _create_connection drv d st with
      | .error e => (st, .error e)
      | .ok (v, st1) =>
          ({ st1 with connections := storeConn key v st1.connections }, body v)

/-- The `except Exception` clause of `DatabaseManager.get_connection`
(Data_Base_Manager.py): any exception out of acquisition or the body is
re-raised as `ConnectionError(f"Database connection failed: {str(e)}")`. -/
def wrapBody {α : Type} : Except PyErr α → Except PyErr α
  | .ok a => .ok a
  | .error e => .error (.connectionError ("Database connection failed: " ++ pyStr e))

/-- `DatabaseManager.get_connection` (Data_Base_Manager.py) as a context
manager run on a body: the `try` part (`acquireAndRun`), its `except`
clause (`wrapBody`), and the `finally` block, which unconditionally
evaluates `self.connections[conn_key].commit()` when
`db_type == "SQLite"` — raising `KeyError` when the key was never stored
and `AttributeError` when the stored value is Python `None`, superseding
any pending result. -/
def get_connection (drv : Driver) (d : DbData) (st : DBState)
    (body : Option Nat → Except PyErr α) : DBState × Except PyErr α :=
  let key := conn_key d
  let res := acquireAndRun drv d st body
  if d.db_type = "SQLite" then
    match lookupConn key res.1.connections with
    | none => (res.1, .error (.keyError key))
    | some none =>
        (res.1, .error (.attributeError "\x27NoneType\x27 object has no attribute \x27commit\x27"))
    | some (some _) => (res.1, wrapBody res.2)
  else
    (res.1, wrapBody res.2)

/-! ### Schema inspection

The catalog queries (`sqlite_master`, `PRAGMA table_info`,
`information_schema`, `SHOW TABLES` / `DESCRIBE`) run against the external
database, so the catalog contents are a parameter; the filtering and
formatting of their result rows is the program's own work and is
translated from the source. -/

/-- One row of SQLite `PRAGMA table_info(t)`:
`(cid, name, type, notnull, dflt_value, pk)`.  The code reads `col[1]`
(the name) and `col[2]` (the declared type). -/
structure TableInfoRow where
  cid : Nat
  name : String
  ctype : String
  notnull : Nat
  dflt_value : Option String
  pk : Nat
deriving DecidableEq, Repr

/-- One user table of an SQLite database as the catalog reports it:
its name (a `type='table'` row of `sqlite_master`) and its
`PRAGMA table_info` rows. -/
structure SqliteTable where
  name : String
  cols : List TableInfoRow
deriving DecidableEq, Repr

/-- ASCII lower-casing, as SQLite `LIKE` case-folds. -/
def asciiLower (c : Char) : Char :=
  if c.toNat ≥ 65 ∧ c.toNat ≤ 90 then Char.ofNat (c.toNat + 32) else c

/-- The SQL pattern `name LIKE 'sqlite_%'` of `_get_sqlite_schema`'s table
query: `_` matches any one character and `%` any tail, case-insensitively,
so it holds exactly when the name has at least 7 characters and its first
six, lower-cased, are `sqlite`. -/
def likeSqlitePattern (s : String) : Bool :=
  7 ≤ s.length && (s.data.take 6).map asciiLower = "sqlite".data

/-- The `f"    - {col[1]} ({col[2]})"` column lines and
`f"\n  Table: {table_name}\n"` header shared by both SQLite formatters. -/
def sqliteTableBlock (tableName : String) (columns : List TableInfoRow) : String :=
  "\n  Table: " ++ tableName ++ "\n" ++
    String.intercalate "\n" (columns.map (fun c => "    - " ++ c.name ++ " (" ++ c.ctype ++ ")"))

/-- `DatabaseManager._get_sqlite_schema` (Data_Base_Manager.py): tables
with `name NOT LIKE 'sqlite_%'`, one block each, joined by newlines. -/
def _get_sqlite_schema (tables : List SqliteTable) : String :=
  String.intercalate "\n"
    ((tables.filter (fun t => ! likeSqlitePattern t.name)).map
      (fun t => sqliteTableBlock t.name t.cols))

/-- The SQLite branch of `DatabaseManager._get_schema_details` with
`_format_table_schema(..., 'sqlite')` (fast_api.py): every `type='table'`
name, no `sqlite_%` exclusion, same block format, joined by newlines. -/
def _get_schema_details_sqlite (tables : List SqliteTable) : String :=
  String.intercalate "\n" (tables.map (fun t => sqliteTableBlock t.name t.cols))

/-- One row of the PostgreSQL catalog query of `_get_postgres_schema`:
`(table_name, column_name, data_type, column_default, is_nullable)`;
`column_default` is `NULL` or text. -/
structure PgRow where
  table_name : String
  column_name : String
  data_type : String
  column_default : Option String := none
  is_nullable : String
deriving DecidableEq, Repr

/-- The column line of `_get_postgres_schema`:
`f"    - {column_name} ({data_type} {nullable_str}{default_str})"`, where
the `DEFAULT` clause appears exactly when `default` is truthy (neither
`None` nor the empty string). -/
def pgColumnLine (r : PgRow) : String :=
  let nullable_str := if r.is_nullable = "YES" then "NULL" else "NOT NULL"
  let default_str :=
    match r.column_default with
    | some s => if s = "" then "" else " DEFAULT " ++ s
    | none => ""
  "    - " ++ r.column_name ++ " (" ++ r.data_type ++ " " ++ nullable_str ++ default_str ++ ")"

/-- `f"\n  Table: {t}\n" + "\n".join(column_details)`. -/
def pgTableBlock (t : String) (colLines : List String) : String :=
  "\n  Table: " ++ t ++ "\n" ++ String.intercalate "\n" colLines

/-- The row loop of `_get_postgres_schema` over
`(current_table, column_details, schema_parts)`, including the final flush
of the last open group. -/
def pgLoop : List PgRow → Option String → List String → List String → List String
  | [], curr, cols, parts =>
      (match curr with
       | none => parts
       | some t => parts ++ [pgTableBlock t cols])
  | r :: rest, curr, cols, parts =>
      if curr = some r.table_name then
        pgLoop rest curr (cols ++ [pgColumnLine r]) parts
      else
        pgLoop rest (some r.table_name) [pgColumnLine r]
          (match curr with
           | none => parts
           | some t => parts ++ [pgTableBlock t cols])

/-- `DatabaseManager._get_postgres_schema` (Data_Base_Manager.py) applied
to the catalog rows its query fetched. -/
def _get_postgres_schema (rows : List PgRow) : String :=
  String.intercalate "\n" (pgLoop rows none [] [])

/-- One row of MySQL `DESCRIBE t`:
`(field, type, null, key, default, extra)`. -/
structure MysqlColumn where
  field : String
  ctype : String
  null : String
  key : String
  default : Option String := none
  extra : String
deriving DecidableEq, Repr

/-- One table of a MySQL database as `SHOW TABLES` and `DESCRIBE` report it. -/
structure MysqlTable where
  name : String
  cols : List MysqlColumn
deriving DecidableEq, Repr

/-- The column line of `_get_mysql_schema`, with `DEFAULT`, key and extra
segments present exactly when their values are truthy. -/
def mysqlColumnLine (c : MysqlColumn) : String :=
  let nullable := if c.null = "YES" then "NULL" else "NOT NULL"
  let default_str :=
    match c.default with
    | some s => if s = "" then "" else " DEFAULT " ++ s
    | none => ""
  let key_str := if c.key = "" then "" else " " ++ c.key
  let extra_str := if c.extra = "" then "" else " " ++ c.extra
  "    - " ++ c.field ++ " (" ++ c.ctype ++ " " ++ nullable ++ default_str ++ key_str ++ extra_str ++ ")"

/-- `DatabaseManager._get_mysql_schema` (Data_Base_Manager.py). -/
def _get_mysql_schema (tables : List MysqlTable) : String :=
  String.intercalate "\n" (tables.map (fun t =>
    "\n  Table: " ++ t.name ++ "\n" ++ String.intercalate "\n" (t.cols.map mysqlColumnLine)))

/-- The catalog contents of the configured database, one component per
dialect the inspectors query. -/
structure Catalog where
  sqliteTables : List SqliteTable := []
  pgRows : List PgRow := []
  mysqlTables : List MysqlTable := []

/-- The result dict of `DatabaseManager.get_schema`:
`{'success': True, 'schema': s}` or `{'success': False, 'message': m}`. -/
inductive SchemaResult where
  | ok (schema : String)
  | fail (message : String)
deriving DecidableEq, Repr

/-- The `with`-body of `get_schema`: `conn.cursor()` raises
`AttributeError` on a yielded Python `None`; otherwise the `db_type`
branches pick the dialect inspector, and any other type raises
`ValueError(f"Unsupported database type: {db_type}")`. -/
def schemaBody (cat : Catalog) (dbType : String) : Option Nat → Except PyErr String :=
  fun conn =>
    match conn with
    | none => .error (.attributeError "\x27NoneType\x27 object has no attribute \x27cursor\x27")
    | some _ =>
        if dbType = "SQLite" then .ok (_get_sqlite_schema cat.sqliteTables)
        else if dbType = "PostgreSQL" then .ok (_get_postgres_schema cat.pgRows)
        else if dbType = "MySQL" then .ok (_get_mysql_schema cat.mysqlTables)
        else .error (.valueError ("Unsupported database type: " ++ dbType))

/-- `DatabaseManager.get_schema` (Data_Base_Manager.py): the body under
`get_connection`, every exception caught and turned into
`{'success': False, 'message': f"Failed to get schema: {str(e)}"}`. -/
def get_schema (drv : Driver) (cat : Catalog) (d : DbData) (st : DBState) :
    DBState × SchemaResult :=
  let res := get_connection drv d st (schemaBody cat d.db_type)
  match res.2 with
  | .ok s => (res.1, .ok s)
  | .error e => (res.1, .fail ("Failed to get schema: " ++ pyStr e))

/-! ### Query execution -/

/-- The `pd.DataFrame(rows, columns=columns)` the executor builds: the
fetched rows paired with the column names from `cursor.description`. -/
structure DataFrame where
  columns : List String
  rows : List (List String)
deriving DecidableEq, Repr

/-- `cursor.execute(sql)` on the external database, opaque to the program:
an exception, or the statement's `cursor.description` column names
together with the rows `fetchall` returns. -/
abbrev SqlRunner : Type := String → Except String (List String × List (List String))

/-- The `with`-body of `execute_query`: cursor from the yielded connection
(`AttributeError` on Python `None`), run the SQL, read the description's
column names and fetch the rows; a `DataFrame` when `rows` is non-empty
(truthy), Python `None` otherwise. -/
def queryBody (run : SqlRunner) (sql : String) : Option Nat → Except PyErr (Option DataFrame) :=
  fun conn =>
    match conn with
    | none => .error (.attributeError "\x27NoneType\x27 object has no attribute \x27cursor\x27")
    | some _ =>
        match run sql with
        | .error e => .error (.exc e)
        | .ok (columns, rows) =>
            if rows = [] then .ok none else .ok (some { columns := columns, rows := rows })

/-- `DatabaseManager.execute_query` (Data_Base_Manager.py): the body under
`get_connection`; any exception is re-raised as
`Exception(f"Query execution failed: {str(e)}")`. -/
def execute_query (drv : Driver) (run : SqlRunner) (sql : String) (d : DbData) (st : DBState) :
    DBState × Except PyErr (Option DataFrame) :=
  let res := get_connection drv d st (queryBody run sql)
  match res.2 with
  | .ok v => (res.1, .ok v)
  | .error e => (res.1, .error (.exc ("Query execution failed: " ++ pyStr e)))

/-! ### The `/get_schema` endpoint of api.py -/

/-- A raised `fastapi.HTTPException`. -/
structure HTTPException where
  status_code : Nat
  detail : String
deriving DecidableEq, Repr

/-- `str(e)` of an `HTTPException`: `f"{status_code}: {detail}"`. -/
def strHTTPException (e : HTTPException) : String :=
  toString e.status_code ++ ": " ++ e.detail

/-- The `try` body of api.py's `get_schema` handler: on
`success == False` it raises `HTTPException(400, message)`, otherwise it
returns the schema result. -/
def api_get_schema_try : SchemaResult → Except HTTPException SchemaResult
  | .fail m => .error { status_code := 400, detail := m }
  | .ok s => .ok (.ok s)

/-- The `/get_schema` handler of api.py: the `try` body, with its blanket
`except Exception` re-raising anything caught — the 400 `HTTPException`
included — as `HTTPException(500, f"Failed to retrieve schema: {str(e)}")`. -/
def api_get_schema (drv : Driver) (cat : Catalog) (d : DbData) (st : DBState) :
    DBState × Except HTTPException SchemaResult :=
  let res := get_schema drv cat d st
  let handled : Except HTTPException SchemaResult :=
    match api_get_schema_try res.2 with
    | .ok v => .ok v
    | .error e =>
        .error { status_code := 500, detail := "Failed to retrieve schema: " ++ strHTTPException e }
  (res.1, handled)

/-! ### The query generator (Query_Generator.py) -/

/-- The text of `QueryGenerator._get_prompt_template`'s f-string before the
`{schema}` interpolation point, byte for byte (the template keeps the
source's 8-space indentation). -/
def promptHead : String :=
  "\n        You are an expert SQL assistant. You will help users write SQL queries that are efficient, secure and follow best practices.\n\n        Database Schema:\n        "

/-- The text of the same f-string after the `{schema}` interpolation point. -/
def promptTail : String :=
  "\n\n        Rules to follow:\n        1. Only write standardized SQL that works across major databases\n        2. Convert English questions into SQL queries based on the above schema\n        3. Add proper indexing suggestions when relevant\n        4. Use clear aliases and formatting\n        5. Consider performance implications\n        6. Avoid SQL injection risks\n        7. Include error handling where needed\n        8. SQL code should not have any syntax errors\n        9. Do not begin or end with any ``` or any other special characters\n        10. Only use tables and columns that exist in the schema above\n\n        Important note: Don\x27t mention sql in your response, provide only the SQL query\n\n        Please provide only the SQL query without any explanations unless specifically asked for details.\n        "

/-- `QueryGenerator._get_prompt_template(schema)`: the fixed template with
the schema text interpolated at its one `{schema}` hole. -/
def _get_prompt_template (schema : String) : String :=
  promptHead ++ schema ++ promptTail

/-- The `schema` argument of `generate_query`: the call sites pass either
the `get_schema` result dict or a plain string. -/
inductive SchemaArg where
  | dict (fields : List (String × String))
  | str (s : String)

/-- Python `fields.get(k, dflt)`. -/
def dictGet (k dflt : String) : List (String × String) → String
  | [] => dflt
  | (k2, v) :: rest => if k2 = k then v else dictGet k dflt rest

/-- `schema.get('schema', '') if isinstance(schema, dict) else schema`. -/
def schemaArgText : SchemaArg → String
  | .dict fields => dictGet "schema" "" fields
  | .str s => s

/-- `QueryGenerator.generate_query` (Query_Generator.py) with the
generative model as an opaque text-to-text function: it sends the model
the template followed by `"\n\nUser Question: "` and the question, and
returns `response.text` unchanged. -/
def generate_query (model : String → String) (question : String) (schema : SchemaArg) : String :=
  let prompt := _get_prompt_template (schemaArgText schema)
  model (prompt ++ "\n\nUser Question: " ++ question)

/-! ### Specification-side description of the PostgreSQL schema text

`pgSchemaSpec` restates what the spec claims `_get_postgres_schema`
produces: one block per distinct table name in order of first appearance,
each listing that table's rows in input order. -/

/-- The distinct elements of a list, in order of first appearance. -/
def firstOccurrences : List String → List String
  | [] => []
  | x :: xs => x :: firstOccurrences (xs.filter (fun y => y ≠ x))
termination_by l => l.length
decreasing_by
  simp only [List.length_cons]
  exact Nat.lt_succ_of_le (List.length_filter_le _ _)

/-- The claimed block for table `t`: `t`'s rows, in input order, each
formatted as a column line. -/
def pgSpecBlock (rows : List PgRow) (t : String) : String :=
  pgTableBlock t ((rows.filter (fun r => r.table_name = t)).map pgColumnLine)

/-- The claimed overall text: one block per distinct table, in order of
first appearance, joined by newlines. -/
def pgSchemaSpec (rows : List PgRow) : String :=
  String.intercalate "\n" ((firstOccurrences (rows.map PgRow.table_name)).map (pgSpecBlock rows))

/-! ### Concrete fixtures used by witnesses and counterexamples -/

/-- A driver that always connects. -/
def drvOk : Driver := fun _ => .ok ()

/-- A driver whose connection attempt always raises. -/
def drvFail : Driver := fun _ => .error "boom"

/-- SQLite configuration whose database name contains an underscore. -/
def dColl1 : DbData := { db_type := "SQLite", db_name := "a_b" }

/-- A different (db_type, db_name, db_host) triple rendering to the same
connection key as `dColl1`. -/
def dColl2 : DbData := { db_type := "SQLite", db_name := "a", db_host := some "b_None" }

/-- A configuration with an unsupported database type. -/
def dMongo : DbData := { db_type := "MongoDB", db_name := "test" }

/-- A plain SQLite configuration. -/
def dSqliteEx : DbData := { db_type := "SQLite", db_name := "test.db" }

/-- A PostgreSQL configuration. -/
def dPgEx : DbData :=
  { db_type := "PostgreSQL", db_name := "db", db_host := some "localhost",
    db_user := some "u", db_password := some "p", db_port := some "5432" }

/-- A MySQL configuration. -/
def dMyEx : DbData :=
  { db_type := "MySQL", db_name := "db", db_host := some "localhost",
    db_user := some "u", db_password := some "p", db_port := some "3306" }

/-- Manager state with a live connection already cached for `dSqliteEx`. -/
def stSqliteCached : DBState := { connections := [("SQLite_test.db_None", some 0)], nextId := 1 }

/-- Manager state with a live connection already cached for `dPgEx`. -/
def stPgCached : DBState := { connections := [("PostgreSQL_db_localhost", some 0)], nextId := 1 }

/-- Manager state with a live connection already cached for `dMyEx`. -/
def stMyCached : DBState := { connections := [("MySQL_db_localhost", some 0)], nextId := 1 }

/-- A cursor oracle for a statement yielding one column and no rows. -/
def runEmptyResult : SqlRunner := fun _ => .ok (["id"], [])

/-- A cursor oracle for a statement yielding one column and one row. -/
def runOneRow : SqlRunner := fun _ => .ok (["id"], [["1"]])

/-- An SQLite catalog table whose name starts with `sqlite_`. -/
def sqliteSeqTable : SqliteTable :=
  { name := "sqlite_seq",
    cols := [{ cid := 0, name := "id", ctype := "INTEGER", notnull := 0,
               dflt_value := none, pk := 0 }] }

/-- An ordinary SQLite catalog table. -/
def usersTable : SqliteTable :=
  { name := "users",
    cols := [{ cid := 0, name := "id", ctype := "INTEGER", notnull := 1,
               dflt_value := none, pk := 1 },
             { cid := 1, name := "name", ctype := "TEXT", notnull := 0,
               dflt_value := none, pk := 0 }] }

/-! ### Helper lemmas about the connection cache -/

theorem lookupConn_storeConn_self (k : String) (v : Option Nat)
    (l : List (String × Option Nat)) : lookupConn k (storeConn k v l) = some v := by
  induction l with
  | nil => simp [storeConn, lookupConn]
  | cons hd tl ih =>
      obtain ⟨k2, v2⟩ := hd
      by_cases hk : k2 = k
      · simp [storeConn, lookupConn, hk]
      · simp [storeConn, lookupConn, hk, ih]

theorem lookupConn_storeConn_ne (k kOther : String) (v : Option Nat)
    (l : List (String × Option Nat)) (h : k ≠ kOther) :
    lookupConn k (storeConn kOther v l) = lookupConn k l := by
  induction l with
  | nil => simp [storeConn, lookupConn, Ne.symm h]
  | cons hd tl ih =>
      obtain ⟨k2, v2⟩ := hd
      by_cases hk : k2 = kOther
      · subst hk
        simp [storeConn, lookupConn, Ne.symm h]
      · simp [storeConn, lookupConn, hk, ih]

/-- The `finally` clause never changes the state: the state a run of
`get_connection` leaves behind is the one the `try` part built. -/
theorem get_connection_fst {α : Type} (drv : Driver) (d : DbData) (st : DBState)
    (body : Option Nat → Except PyErr α) :
    (get_connection drv d st body).1 = (acquireAndRun drv d st body).1 := by
  unfold get_connection
  dsimp only
  split
  · split <;> rfl
  · rfl

/-- Cache hit on a live connection: `get_connection` yields the stored
connection, leaves the state alone, and reports the body's result
(`commit` in the `finally` clause succeeds on a live connection). -/
theorem get_connection_cached {α : Type} (drv : Driver) (d : DbData) (st : DBState)
    (body : Option Nat → Except PyErr α) (c : Nat)
    (hconn : lookupConn (conn_key d) st.connections = some (some c)) :
    get_connection drv d st body = (st, wrapBody (body (some c))) := by
  unfold get_connection acquireAndRun
  dsimp only
  rw [hconn]
  by_cases hd : d.db_type = "SQLite" <;> simp [hd, hconn]

/-- Cache miss on a recognised dialect with a working driver: a fresh
connection is created, stored under the rendered key, and yielded. -/
theorem get_connection_fresh {α : Type} (drv : Driver) (d : DbData) (st : DBState)
    (body : Option Nat → Except PyErr α)
    (hmiss : lookupConn (conn_key d) st.connections = none)
    (hsup : d.db_type = "SQLite" ∨ d.db_type = "PostgreSQL" ∨ d.db_type = "MySQL")
    (hdrv : drv d = .ok ()) :
    get_connection drv d st body =
      ({ connections := storeConn (conn_key d) (some st.nextId) st.connections,
         nextId := st.nextId + 1 },
       wrapBody (body (some st.nextId))) := by
  unfold get_connection acquireAndRun _create_connection
  dsimp only
  rw [hmiss, if_pos hsup, hdrv]
  by_cases hd : d.db_type = "SQLite" <;>
    simp [hd, lookupConn_storeConn_self]

/-- Cache miss on an unrecognised dialect: `_create_connection` returns
Python `None`, which is stored under the key and yielded. -/
theorem get_connection_unsupported {α : Type} (drv : Driver) (d : DbData) (st : DBState)
    (body : Option Nat → Except PyErr α)
    (hmiss : lookupConn (conn_key d) st.connections = none)
    (hunsup : ¬(d.db_type = "SQLite" ∨ d.db_type = "PostgreSQL" ∨ d.db_type = "MySQL")) :
    get_connection drv d st body =
      ({ connections := storeConn (conn_key d) none st.connections,
         nextId := st.nextId },
       wrapBody (body none)) := by
  have hd : ¬ d.db_type = "SQLite" := fun h => hunsup (Or.inl h)
  unfold get_connection acquireAndRun _create_connection
  dsimp only
  rw [hmiss, if_neg hunsup]
  simp [hd]

/-- Cache miss with a failing driver on a recognised dialect: nothing is
stored; for SQLite the `finally` clause then raises `KeyError` on the
absent entry, elsewhere the wrapped `ConnectionError` is reported. -/
theorem get_connection_create_error {α : Type} (drv : Driver) (d : DbData) (st : DBState)
    (body : Option Nat → Except PyErr α) (msg : String)
    (hmiss : lookupConn (conn_key d) st.connections = none)
    (hsup : d.db_type = "SQLite" ∨ d.db_type = "PostgreSQL" ∨ d.db_type = "MySQL")
    (hdrv : drv d = .error msg) :
    get_connection drv d st body =
      (st,
       if d.db_type = "SQLite" then .error (.keyError (conn_key d))
       else .error (.connectionError
         ("Database connection failed: " ++ ("Failed to connect to database: " ++ msg)))) := by
  unfold get_connection acquireAndRun _create_connection
  dsimp only
  rw [hmiss, if_pos hsup, hdrv]
  by_cases hd : d.db_type = "SQLite" <;> simp [hd, hmiss, pyStr, wrapBody]

/-! ### The claims -/

/-- C4: `QueryGenerator.generate_query` sends the external model exactly
the fixed instruction prompt template with the schema text interpolated
into it, followed by `"\n\nUser Question: "` and the question, and returns
the model's response text unchanged; treating the model as an opaque
text-to-text function, the result equals that function applied to that
exact prompt, where the schema text is the `schema` field when the schema
argument is a dict and the argument itself otherwise. -/
theorem generate_query_sends_exact_prompt (model : String → String) (question : String)
    (schema : SchemaArg) :
    generate_query model question schema =
      model (promptHead ++ schemaArgText schema ++ promptTail ++
        "\n\nUser Question: " ++ question) ∧
    (∀ fields, schemaArgText (.dict fields) = dictGet "schema" "" fields) ∧
    (∀ s, schemaArgText (.str s) = s) :=
  ⟨rfl, fun _ => rfl, fun _ => rfl⟩

/-- C3: for each of the three supported dialects `get_schema` runs that
dialect's catalog inspector, but for an unsupported `db_type` the failure
message reports a `NoneType` connection error instead of naming the
unsupported database type: `_create_connection` falls off its `if/elif`
chain and returns `None`, so `conn.cursor()` raises before the
`raise ValueError(f"Unsupported database type: {db_type}")` line can run,
leaving that message unreachable. -/
theorem get_schema_unsupported_message :
    (∀ cat : Catalog, get_schema drvOk cat dSqliteEx stSqliteCached =
      (stSqliteCached, .ok (_get_sqlite_schema cat.sqliteTables))) ∧
    (∀ cat : Catalog, get_schema drvOk cat dPgEx stPgCached =
      (stPgCached, .ok (_get_postgres_schema cat.pgRows))) ∧
    (∀ cat : Catalog, get_schema drvOk cat dMyEx stMyCached =
      (stMyCached, .ok (_get_mysql_schema cat.mysqlTables))) ∧
    (∀ (drv : Driver) (cat : Catalog),
      get_schema drv cat dMongo {} =
        ({ connections := [("MongoDB_test_None", none)], nextId := 0 },
         .fail "Failed to get schema: Database connection failed: \x27NoneType\x27 object has no attribute \x27cursor\x27")) ∧
    "Failed to get schema: Database connection failed: \x27NoneType\x27 object has no attribute \x27cursor\x27" ≠
      "Failed to get schema: Unsupported database type: MongoDB" :=
  ⟨fun _ => rfl, fun _ => rfl, fun _ => rfl, fun _ _ => rfl, by decide⟩

/-- C9: on the `/get_schema` endpooint of api.py a schema-introspection
failure never reaches the client with status 400: the
`HTTPException(400, message)` raised inside the `try` block is caught by
the handler's blanket `except Exception` clause and re-raised as an
`HTTPException` with status 500 whose detail wraps the original message. -/
theorem api_schema_failure_returns_500 (drv : Driver) (cat : Catalog) (d : DbData)
    (st : DBState) (m : String)
    (h : (get_schema drv cat d st).2 = .fail m) :
    (api_get_schema drv cat d st).2 =
      .error { status_code := 500, detail := "Failed to retrieve schema: 400: " ++ m } ∧
    (∀ e, (api_get_schema drv cat d st).2 = .error e → e.status_code ≠ 400) := by
  have h1 : (api_get_schema drv cat d st).2 =
      .error { status_code := 500, detail := "Failed to retrieve schema: 400: " ++ m } := by
    unfold api_get_schema
    dsimp only
    rw [h]
    simp only [api_get_schema_try, strHTTPException]
    rw [show toString (400 : Nat) = "400" from rfl, ← String.append_assoc,
      ← String.append_assoc]
    congr 1
  refine ⟨h1, fun e he => ?_⟩
  rw [h1] at he
  cases he
  simp

/-- C9 witness: an unsupported database type makes `get_schema` fail, and
the endpoint turns the 400 `HTTPException` into a 500 whose detail wraps
the 400 and its message. -/
theorem api_schema_failure_returns_500_witness :
    (api_get_schema drvOk {} dMongo {}).2 =
      .error { status_code := 500,
               detail := "Failed to retrieve schema: 400: Failed to get schema: Database connection failed: \x27NoneType\x27 object has no attribute \x27cursor\x27" } ∧
    (∀ e, (api_get_schema drvOk {} dMongo {}).2 = .error e → e.status_code ≠ 400) :=
  api_schema_failure_returns_500 drvOk {} dMongo {}
    "Failed to get schema: Database connection failed: \x27NoneType\x27 object has no attribute \x27cursor\x27"
    rfl

/-- C2 counterexample: a successfully executed statement with a described
column (`id`) but zero fetched rows makes `execute_query` return Python
`None` — not a tabular result pairing the zero rows with the column-name
list — so the returned value does not contain the column names. -/
theorem execute_query_drops_columns_on_empty :
    execute_query drvOk runEmptyResult "SELECT id FROM t" dSqliteEx stSqliteCached =
      (stSqliteCached, .ok none) ∧
    (Except.ok (none : Option DataFrame) : Except PyErr (Option DataFrame)) ≠
      .ok (some { columns := ["id"], rows := [] }) :=
  ⟨rfl, by simp⟩

/-- C2 amended: for a SQL string the cursor runs successfully against a
cached live connection, `execute_query` returns the fetched rows paired
with the column names of the cursor's description when at least one row
was fetched, and returns `None` (carrying neither rows nor column names)
when the statement yields zero rows. -/
theorem execute_query_rows_with_columns (drv : Driver) (run : SqlRunner) (sql : String)
    (d : DbData) (st : DBState) (c : Nat) (columns : List String)
    (rows : List (List String))
    (hconn : lookupConn (conn_key d) st.connections = some (some c))
    (hrun : run sql = .ok (columns, rows)) :
    (rows ≠ [] →
      execute_query drv run sql d st =
        (st, .ok (some { columns := columns, rows := rows }))) ∧
    (rows = [] → execute_query drv run sql d st = (st, .ok none)) := by
  have hbody : ∀ v : Option DataFrame,
      queryBody run sql (some c) = .ok v →
      execute_query drv run sql d st = (st, .ok v) := by
    intro v hv
    unfold execute_query
    rw [get_connection_cached drv d st (queryBody run sql) c hconn]
    dsimp only
    rw [hv]
    simp [wrapBody]
  constructor
  · intro hne
    refine hbody _ ?_
    unfold queryBody
    rw [hrun]
    simp [hne]
  · intro hnil
    refine hbody _ ?_
    unfold queryBody
    rw [hrun]
    simp [hnil]

/-- C2 witness: with a cached SQLite connection, a one-row result comes
back as rows plus the `id` column name, and a zero-row result comes back
as `None`. -/
theorem execute_query_rows_with_columns_witness :
    execute_query drvOk runOneRow "SELECT id FROM t" dSqliteEx stSqliteCached =
      (stSqliteCached, .ok (some { columns := ["id"], rows := [["1"]] })) ∧
    execute_query drvOk runEmptyResult "SELECT id FROM t" dSqliteEx stSqliteCached =
      (stSqliteCached, .ok none) :=
  ⟨(execute_query_rows_with_columns drvOk runOneRow "SELECT id FROM t" dSqliteEx
      stSqliteCached 0 ["id"] [["1"]] rfl rfl).1 (by decide),
   (execute_query_rows_with_columns drvOk runEmptyResult "SELECT id FROM t" dSqliteEx
      stSqliteCached 0 ["id"] [] rfl rfl).2 rfl⟩

/-- C6 counterexample: on a catalog holding one table named `sqlite_seq`,
`_get_sqlite_schema` (Data_Base_Manager.py) excludes it through its
`NOT LIKE 'sqlite_%'` filter while the fast_api.py inspector keeps it, so
the two schema texts differ. -/
theorem sqlite_schema_impls_differ :
    _get_sqlite_schema [sqliteSeqTable] ≠ _get_schema_details_sqlite [sqliteSeqTable] := by
  decide

/-- C6 amended: the two SQLite schema inspections agree on every catalog
in which no table name matches the pattern `sqlite_%` (at least seven
characters whose first six are `sqlite` up to ASCII case); on such
catalogs both produce the same normalized schema text block. -/
theorem sqlite_schema_impls_agree (tables : List SqliteTable)
    (h : ∀ t ∈ tables, likeSqlitePattern t.name = false) :
    _get_sqlite_schema tables = _get_schema_details_sqlite tables := by
  unfold _get_sqlite_schema _get_schema_details_sqlite
  have : tables.filter (fun t => ! likeSqlitePattern t.name) = tables :=
    List.filter_eq_self.mpr (fun t ht => by simp [h t ht])
  rw [this]

/-- C6 witness: both inspectors render the same text for a catalog with
one ordinary table. -/
theorem sqlite_schema_impls_agree_witness :
    _get_sqlite_schema [usersTable] = _get_schema_details_sqlite [usersTable] :=
  sqlite_schema_impls_agree [usersTable] (by decide)

/-- C8: when `_create_connection` raises for an SQLite configuration whose
key holds no cached entry, `get_connection` raises `KeyError` from its
`finally` block — which unconditionally accesses the cache entry to commit
— rather than the `ConnectionError` describing the connection failure: the
original connection error is masked for SQLite targets. -/
theorem sqlite_create_failure_masked {α : Type} (drv : Driver) (d : DbData) (st : DBState)
    (body : Option Nat → Except PyErr α) (msg : String)
    (htype : d.db_type = "SQLite")
    (hmiss : lookupConn (conn_key d) st.connections = none)
    (hdrv : drv d = .error msg) :
    (get_connection drv d st body).2 = .error (.keyError (conn_key d)) ∧
    ∀ m, (get_connection drv d st body).2 ≠ .error (.connectionError m) := by
  rw [get_connection_create_error drv d st body msg hmiss (Or.inl htype) hdrv]
  dsimp only
  rw [if_pos htype]
  refine ⟨rfl, fun m hm => ?_⟩
  injection hm with h2
  exact PyErr.noConfusion h2

/-- C8 witness: a failing SQLite connection attempt on a fresh manager
surfaces as `KeyError` on the connection key, not as the wrapped
`ConnectionError`. -/
theorem sqlite_create_failure_masked_witness :
    (get_connection drvFail dColl1 {}
        (fun c => (Except.ok c : Except PyErr (Option Nat)))).2 =
      .error (.keyError "SQLite_a_b_None") ∧
    (get_connection drvFail dColl1 {}
        (fun c => (Except.ok c : Except PyErr (Option Nat)))).2 ≠
      .error (.connectionError
        "Database connection failed: Failed to connect to database: boom") := by
  have h := sqlite_create_failure_masked drvFail dColl1 {}
    (fun c => (Except.ok c : Except PyErr (Option Nat))) "boom" rfl rfl rfl
  exact ⟨h.1, h.2 _⟩

/-- `_create_connection` never touches the `connections` dict: a
successful creation only advances the identity counter. -/
theorem _create_connection_connections (drv : Driver) (d : DbData) (st : DBState)
    (p : Option Nat × DBState) (h : _create_connection drv d st = .ok p) :
    p.2.connections = st.connections := by
  unfold _create_connection at h
  split at h
  · cases hd : drv d <;> rw [hd] at h
    · cases h
    · cases h
      rfl
  · cases h
    rfl

/-- The `try` part of `get_connection` preserves every cache entry already
present: it only ever stores under a key that was absent. -/
theorem lookupConn_acquireAndRun {α : Type} (drv : Driver) (d : DbData) (st : DBState)
    (body : Option Nat → Except PyErr α) (k : String) (v : Option Nat)
    (h : lookupConn k st.connections = some v) :
    lookupConn k (acquireAndRun drv d st body).1.connections = some v := by
  unfold acquireAndRun
  dsimp only
  cases hl : lookupConn (conn_key d) st.connections with
  | some w => simpa using h
  | none =>
      cases hc : _create_connection drv d st with
      | error e => simpa using h
      | ok p =>
          obtain ⟨w, st1⟩ := p
          dsimp only
          have hk : k ≠ conn_key d := by
            intro he
            rw [he, hl] at h
            cases h
          have hconn1 : st1.connections = st.connections :=
            _create_connection_connections drv d st (w, st1) hc
          rw [hconn1, lookupConn_storeConn_ne k (conn_key d) w st.connections hk]
          exact h

/-- `get_schema` leaves exactly the state `get_connection` leaves. -/
theorem get_schema_fst (drv : Driver) (cat : Catalog) (d : DbData) (st : DBState) :
    (get_schema drv cat d st).1 =
      (get_connection drv d st (schemaBody cat d.db_type)).1 := by
  unfold get_schema
  dsimp only
  split <;> rfl

/-- `execute_query` leaves exactly the state `get_connection` leaves. -/
theorem execute_query_fst (drv : Driver) (run : SqlRunner) (sql : String)
    (d : DbData) (st : DBState) :
    (execute_query drv run sql d st).1 =
      (get_connection drv d st (queryBody run sql)).1 := by
  unfold execute_query
  dsimp only
  split <;> rfl

/-- C7: the connection cache is a plain map with no eviction — no
operation of `DatabaseManager` (`get_connection`, `get_schema`,
`execute_query`) removes an entry from the connections map or rebinds an
existing key: every key present before an operation maps to the same
connection afterwards, whether the operation succeeds or fails. -/
theorem connections_never_evicted {α : Type} (drv : Driver) (cat : Catalog)
    (run : SqlRunner) (sql : String) (d : DbData) (st : DBState) (k : String)
    (v : Option Nat)
    (h : lookupConn k st.connections = some v) :
    (∀ body : Option Nat → Except PyErr α,
       lookupConn k (get_connection drv d st body).1.connections = some v) ∧
    lookupConn k (get_schema drv cat d st).1.connections = some v ∧
    lookupConn k (execute_query drv run sql d st).1.connections = some v := by
  have hg : ∀ (β : Type) (body : Option Nat → Except PyErr β),
      lookupConn k (get_connection drv d st body).1.connections = some v := by
    intro β body
    rw [get_connection_fst]
    exact lookupConn_acquireAndRun drv d st body k v h
  refine ⟨hg α, ?_, ?_⟩
  · rw [get_schema_fst]
    exact hg _ _
  · rw [execute_query_fst]
    exact hg _ _

/-- C7 witness: an entry cached for one target survives a connection, a
schema inspection and a query execution against a different target. -/
theorem connections_never_evicted_witness :
    (∀ body : Option Nat → Except PyErr (Option Nat),
       lookupConn "SQLite_test.db_None"
         (get_connection drvOk dPgEx stSqliteCached body).1.connections = some (some 0)) ∧
    lookupConn "SQLite_test.db_None"
      (get_schema drvOk {} dPgEx stSqliteCached).1.connections = some (some 0) ∧
    lookupConn "SQLite_test.db_None"
      (execute_query drvOk runOneRow "SELECT 1" dPgEx stSqliteCached).1.connections =
      some (some 0) :=
  connections_never_evicted drvOk {} runOneRow "SELECT 1" dPgEx stSqliteCached
    "SQLite_test.db_None" (some 0) rfl

/-- A probe body that just reports the connection `get_connection`
yielded. -/
def yieldConn : Option Nat → Except PyErr (Option Nat) := fun c => .ok c

/-- Cache hit on a stored Python `None`: the `None` is yielded; for SQLite
the `finally` clause then raises `AttributeError` trying to commit it. -/
theorem get_connection_cached_none {α : Type} (drv : Driver) (d : DbData) (st : DBState)
    (body : Option Nat → Except PyErr α)
    (hconn : lookupConn (conn_key d) st.connections = some none) :
    get_connection drv d st body =
      (st, if d.db_type = "SQLite"
           then .error (.attributeError "\x27NoneType\x27 object has no attribute \x27commit\x27")
           else wrapBody (body none)) := by
  unfold get_connection acquireAndRun
  dsimp only
  rw [hconn]
  by_cases hd : d.db_type = "SQLite" <;> simp [hd, hconn]

/-- After a probe run of `get_connection` that yielded `c` and reported no
exception, `c` is exactly the cache entry under the rendered key, and a
yielded Python `None` can only have happened on a non-SQLite dialect (for
SQLite the `finally` commit would have raised). -/
theorem get_connection_yield_characterization (drv : Driver) (d : DbData) (st : DBState)
    (c : Option Nat)
    (h : (get_connection drv d st yieldConn).2 = .ok c) :
    lookupConn (conn_key d) (get_connection drv d st yieldConn).1.connections = some c ∧
    (c = none → d.db_type ≠ "SQLite") := by
  cases hl : lookupConn (conn_key d) st.connections with
  | some v =>
      cases v with
      | some c0 =>
          rw [get_connection_cached drv d st yieldConn c0 hl] at h ⊢
          simp only [yieldConn, wrapBody] at h
          injection h with h2
          subst h2
          exact ⟨hl, fun hc => by cases hc⟩
      | none =>
          rw [get_connection_cached_none drv d st yieldConn hl] at h ⊢
          by_cases hd : d.db_type = "SQLite"
          · rw [if_pos hd] at h
            cases h
          · rw [if_neg hd] at h ⊢
            simp only [yieldConn, wrapBody] at h
            injection h with h2
            subst h2
            exact ⟨hl, fun _ => hd⟩
  | none =>
      by_cases hsup : d.db_type = "SQLite" ∨ d.db_type = "PostgreSQL" ∨ d.db_type = "MySQL"
      · cases hdrv : drv d with
        | error msg =>
            rw [get_connection_create_error drv d st yieldConn msg hl hsup hdrv] at h
            dsimp only at h
            by_cases hd : d.db_type = "SQLite"
            · rw [if_pos hd] at h
              cases h
            · rw [if_neg hd] at h
              cases h
        | ok u =>
            obtain ⟨⟩ := u
            rw [get_connection_fresh drv d st yieldConn hl hsup hdrv] at h ⊢
            simp only [yieldConn, wrapBody] at h
            injection h with h2
            subst h2
            refine ⟨?_, fun hc => by cases hc⟩
            dsimp only
            exact lookupConn_storeConn_self (conn_key d) (some st.nextId) st.connections
      · rw [get_connection_unsupported drv d st yieldConn hl hsup] at h ⊢
        simp only [yieldConn, wrapBody] at h
        injection h with h2
        subst h2
        refine ⟨?_, fun _ hd => hsup (Or.inl hd)⟩
        dsimp only
        exact lookupConn_storeConn_self (conn_key d) none st.connections

/-- A probe run against a key whose cache entry is `c` (a live connection,
or a `None` on a non-SQLite dialect) yields exactly `c` and leaves the
state untouched. -/
theorem get_connection_yield_cached (drv : Driver) (d : DbData) (st : DBState)
    (c : Option Nat)
    (hconn : lookupConn (conn_key d) st.connections = some c)
    (hns : c = none → d.db_type ≠ "SQLite") :
    get_connection drv d st yieldConn = (st, .ok c) := by
  cases c with
  | some c0 =>
      rw [get_connection_cached drv d st yieldConn c0 hconn]
      simp [yieldConn, wrapBody]
  | none =>
      rw [get_connection_cached_none drv d st yieldConn hconn]
      rw [if_neg (hns rfl)]
      simp [yieldConn, wrapBody]

/-- C10: once a connection is cached under a key, `get_connection` yields
that same connection for every later configuration agreeing on
`(db_type, db_name, db_host)` even when `db_user`, `db_password` or
`db_port` differ — the yielded connection (and the cache state) is
independent of the credential and port fields and of the driver, which is
never consulted again. -/
theorem connection_reuse_ignores_credentials (drv1 drv2 : Driver) (d1 d2 : DbData)
    (st : DBState) (c : Option Nat)
    (htype : d1.db_type = d2.db_type) (hname : d1.db_name = d2.db_name)
    (hhost : d1.db_host = d2.db_host)
    (h : (get_connection drv1 d1 st yieldConn).2 = .ok c) :
    get_connection drv2 d2 (get_connection drv1 d1 st yieldConn).1 yieldConn =
      ((get_connection drv1 d1 st yieldConn).1, .ok c) := by
  have hkey : conn_key d2 = conn_key d1 := by
    unfold conn_key
    rw [htype, hname, hhost]
  have hA := get_connection_yield_characterization drv1 d1 st c h
  exact get_connection_yield_cached drv2 d2 _ c (by rw [hkey]; exact hA.1)
    (fun hc => by rw [← htype]; exact hA.2 hc)

/-- C10 witness: a PostgreSQL connection created for one set of
credentials is reused for a configuration with a different user, password
and port — even under a driver that would refuse to connect. -/
theorem connection_reuse_ignores_credentials_witness :
    get_connection drvFail
        { db_type := "PostgreSQL", db_name := "db", db_host := some "localhost",
          db_user := some "other", db_password := some "secret2", db_port := some "6543" }
        (get_connection drvOk dPgEx {} yieldConn).1 yieldConn =
      ((get_connection drvOk dPgEx {} yieldConn).1, .ok (some 0)) :=
  connection_reuse_ignores_credentials drvOk drvFail dPgEx
    { db_type := "PostgreSQL", db_name := "db", db_host := some "localhost",
      db_user := some "other", db_password := some "secret2", db_port := some "6543" }
    {} (some 0) rfl rfl rfl rfl

/-- C1 counterexample: the cache key is the rendered string
`f"{db_type}_{db_name}_{db_host}"`, which is not injective in the
`(db_type, db_name, db_host)` triple: `dColl1` and `dColl2` differ in
`db_name` yet render the same key, so the first operation against
`dColl2`'s triple creates and stores nothing (the map and the identity
counter are unchanged) and yields the connection created for `dColl1`. -/
theorem connection_key_collision :
    dColl1.db_name ≠ dColl2.db_name ∧
    conn_key dColl1 = conn_key dColl2 ∧
    get_connection drvOk dColl1 {} yieldConn =
      ({ connections := [("SQLite_a_b_None", some 0)], nextId := 1 }, .ok (some 0)) ∧
    get_connection drvOk dColl2
        { connections := [("SQLite_a_b_None", some 0)], nextId := 1 } yieldConn =
      ({ connections := [("SQLite_a_b_None", some 0)], nextId := 1 }, .ok (some 0)) :=
  ⟨by decide, rfl, rfl, rfl⟩

/-- C1 amended: `get_connection` creates at most one live connection per
rendered key string: a configuration whose key already has a live cached
connection gets exactly that connection back with the state unchanged,
and a configuration with an uncached key, a recognised dialect and a
working driver gets a fresh connection stored under its key.
Configurations with the same `(db_type, db_name, db_host)` triple always
render the same key; distinct triples may also collide on it. -/
theorem connection_per_key_string (drv : Driver) (d : DbData) (st : DBState) (c : Nat) :
    (lookupConn (conn_key d) st.connections = some (some c) →
      get_connection drv d st yieldConn = (st, .ok (some c))) ∧
    (lookupConn (conn_key d) st.connections = none →
      (d.db_type = "SQLite" ∨ d.db_type = "PostgreSQL" ∨ d.db_type = "MySQL") →
      drv d = .ok () →
      get_connection drv d st yieldConn =
        ({ connections := storeConn (conn_key d) (some st.nextId) st.connections,
           nextId := st.nextId + 1 }, .ok (some st.nextId))) := by
  constructor
  · intro hconn
    rw [get_connection_cached drv d st yieldConn c hconn]
    simp [yieldConn, wrapBody]
  · intro hmiss hsup hdrv
    rw [get_connection_fresh drv d st yieldConn hmiss hsup hdrv]
    simp [yieldConn, wrapBody]

/-- C1 amended witness: a cache hit returns the stored connection with the
state unchanged; a cache miss creates, stores and yields connection 0. -/
theorem connection_per_key_string_witness :
    get_connection drvOk dSqliteEx stSqliteCached yieldConn =
      (stSqliteCached, .ok (some 0)) ∧
    get_connection drvOk dSqliteEx {} yieldConn =
      ({ connections := storeConn "SQLite_test.db_None" (some 0) [], nextId := 1 },
       .ok (some 0)) :=
  ⟨(connection_per_key_string drvOk dSqliteEx stSqliteCached 0).1 rfl,
   (connection_per_key_string drvOk dSqliteEx {} 0).2 rfl (Or.inl rfl) rfl⟩

/-! ### The PostgreSQL grouping loop versus its specification -/

/-- The `schema_parts` accumulator only ever receives appends: a run of
the loop is its starting accumulator followed by a run from empty. -/
theorem pgLoop_parts (rs : List PgRow) (curr : Option String) (cols parts : List String) :
    pgLoop rs curr cols parts = parts ++ pgLoop rs curr cols [] := by
  induction rs generalizing curr cols parts with
  | nil => cases curr <;> simp [pgLoop]
  | cons r rest ih =>
      by_cases h : curr = some r.table_name
      · simp only [pgLoop, if_pos h]
        exact ih curr (cols ++ [pgColumnLine r]) parts
      · cases curr with
        | none =>
            simp only [pgLoop, if_neg h]
            exact ih (some r.table_name) [pgColumnLine r] parts
        | some t =>
            simp only [pgLoop, if_neg h]
            rw [ih (some r.table_name) [pgColumnLine r] (parts ++ [pgTableBlock t cols]),
              ih (some r.table_name) [pgColumnLine r] ([] ++ [pgTableBlock t cols])]
            simp

/-- Everything `firstOccurrences` lists occurs in the list. -/
theorem mem_of_mem_firstOccurrences (x : String) (l : List String)
    (h : x ∈ firstOccurrences l) : x ∈ l := by
  have H : ∀ (n : Nat) (l2 : List String), l2.length ≤ n →
      x ∈ firstOccurrences l2 → x ∈ l2 := by
    intro n
    induction n with
    | zero =>
        intro l2 hl h2
        cases l2 with
        | nil => simp [firstOccurrences] at h2
        | cons y ys => simp at hl
    | succ n ih =>
        intro l2 hl h2
        cases l2 with
        | nil => simp [firstOccurrences] at h2
        | cons y ys =>
            simp only [firstOccurrences] at h2
            rcases List.mem_cons.mp h2 with h1 | h3
            · exact h1 ▸ List.mem_cons_self y ys
            · have hlen : (ys.filter (fun z => z ≠ y)).length ≤ n :=
                le_trans (List.length_filter_le _ ys) (Nat.le_of_succ_le_succ hl)
              exact List.mem_cons_of_mem y
                (List.mem_of_mem_filter (ih _ hlen h3))
  exact H l.length l le_rfl h

/-- A leading row of a different table contributes nothing to another
table's claimed block. -/
theorem pgSpecBlock_cons_ne (r : PgRow) (rest : List PgRow) (t2 : String)
    (h : r.table_name ≠ t2) : pgSpecBlock (r :: rest) t2 = pgSpecBlock rest t2 := by
  unfold pgSpecBlock
  simp [List.filter_cons, h]

/-- Unfolding the claimed text one table at a time: the first block is the
first row's table with all of that table's rows, and the remaining blocks
are those of the tail restricted to the other tables. -/
theorem pgSpec_cons (r : PgRow) (rest : List PgRow) :
    (firstOccurrences ((r :: rest).map PgRow.table_name)).map (pgSpecBlock (r :: rest)) =
      pgTableBlock r.table_name
          ([pgColumnLine r] ++
            (rest.filter (fun x => x.table_name = r.table_name)).map pgColumnLine) ::
        (firstOccurrences
            ((rest.map PgRow.table_name).filter (fun y => y ≠ r.table_name))).map
          (pgSpecBlock rest) := by
  simp only [List.map_cons, firstOccurrences, List.map_cons]
  congr 1
  · unfold pgSpecBlock
    simp [List.filter_cons]
  · refine List.map_congr_left (fun t2 ht2 => ?_)
    have hmem := mem_of_mem_firstOccurrences t2 _ ht2
    have hne : t2 ≠ r.table_name := by
      have := List.of_mem_filter hmem
      simpa using this
    exact pgSpecBlock_cons_ne r rest t2 (Ne.symm hne)

/-- The loop mid-run on table `t` with `cols` already collected: on rows
sorted by table name and all at least `t`, it closes `t`'s block with
`t`'s remaining rows and then emits the claimed blocks of the later
tables. -/
theorem pgLoop_grouped (rows : List PgRow) (t : String) (cols : List String)
    (hsort : (rows.map PgRow.table_name).Sorted (· ≤ ·))
    (hle : ∀ x ∈ rows, t ≤ x.table_name) :
    pgLoop rows (some t) cols [] =
      pgTableBlock t
          (cols ++ (rows.filter (fun r => r.table_name = t)).map pgColumnLine) ::
        (firstOccurrences ((rows.map PgRow.table_name).filter (fun y => y ≠ t))).map
          (pgSpecBlock rows) := by
  induction rows generalizing t cols with
  | nil => simp [pgLoop, firstOccurrences]
  | cons r rest ih =>
      rw [List.map_cons, List.sorted_cons] at hsort
      have hler : ∀ x ∈ rest, r.table_name ≤ x.table_name := fun x hx =>
        hsort.1 _ (List.mem_map_of_mem _ hx)
      by_cases hrt : r.table_name = t
      · subst hrt
        simp only [pgLoop, if_pos rfl, if_true]
        rw [ih r.table_name (cols ++ [pgColumnLine r]) hsort.2 hler]
        congr 1
        · have hstep : List.filter (fun r2 => decide (r2.table_name = r.table_name)) (r :: rest) =
              r :: List.filter (fun r2 => decide (r2.table_name = r.table_name)) rest := by
            simp [List.filter_cons]
          rw [hstep]
          simp [List.append_assoc]
        · have hstep : List.filter (fun y => decide (y ≠ r.table_name))
              (List.map PgRow.table_name (r :: rest)) =
              List.filter (fun y => decide (y ≠ r.table_name)) (List.map PgRow.table_name rest) := by
            simp [List.filter_cons]
          rw [hstep]
          refine List.map_congr_left (fun t2 ht2 => ?_)
          have hmem := mem_of_mem_firstOccurrences t2 _ ht2
          have hne : t2 ≠ r.table_name := by simpa using List.of_mem_filter hmem
          exact (pgSpecBlock_cons_ne r rest t2 (Ne.symm hne)).symm
      · have htlt : t < r.table_name :=
          lt_of_le_of_ne (hle r (List.mem_cons_self r rest)) (fun h2 => hrt h2.symm)
        have hnt : ∀ x ∈ (r :: rest), x.table_name ≠ t := by
          intro x hx
          rcases List.mem_cons.mp hx with h1 | h2
          · rw [h1]
            exact hrt
          · exact ne_of_gt (lt_of_lt_of_le htlt (hler x h2))
        simp only [pgLoop]
        rw [if_neg (fun h2 => hrt (Option.some.inj h2).symm)]
        rw [pgLoop_parts rest (some r.table_name) [pgColumnLine r] ([] ++ [pgTableBlock t cols]),
          ih r.table_name [pgColumnLine r] hsort.2 hler]
        have hfilter0 : List.filter (fun r2 => decide (r2.table_name = t)) (r :: rest) = [] :=
          List.filter_eq_nil_iff.mpr (fun x hx => by simpa using hnt x hx)
        have hfilter1 : List.filter (fun y => decide (y ≠ t))
            (List.map PgRow.table_name (r :: rest)) = List.map PgRow.table_name (r :: rest) :=
          List.filter_eq_self.mpr (fun a ha => by
            obtain ⟨x, hx, rfl⟩ := List.mem_map.mp ha
            simpa using hnt x hx)
        rw [hfilter0, hfilter1, pgSpec_cons r rest]
        simp

/-- C5: on PostgreSQL catalog rows sorted by table name (each table's
columns in ordinal-position order), `_get_postgres_schema` produces
exactly one `Table:` section per distinct table, in order of first
appearance, listing that table's columns in input order, each column line
carrying the data type, the NULL/NOT NULL marker from the nullable flag,
and a DEFAULT clause exactly when the default value is non-empty — the
text `pgSchemaSpec` describes. -/
theorem postgres_schema_grouping (rows : List PgRow)
    (hsort : (rows.map PgRow.table_name).Sorted (· ≤ ·)) :
    _get_postgres_schema rows = pgSchemaSpec rows := by
  unfold _get_postgres_schema pgSchemaSpec
  congr 1
  cases rows with
  | nil => simp [pgLoop, firstOccurrences]
  | cons r rest =>
      rw [List.map_cons, List.sorted_cons] at hsort
      have hler : ∀ x ∈ rest, r.table_name ≤ x.table_name := fun x hx =>
        hsort.1 _ (List.mem_map_of_mem _ hx)
      simp only [pgLoop]
      rw [if_neg (fun h2 => Option.noConfusion h2)]
      rw [pgLoop_grouped rest r.table_name [pgColumnLine r] hsort.2 hler,
        pgSpec_cons r rest]

/-- Sorted PostgreSQL catalog rows: two tables, `orders` before `users`,
with a non-empty default on one column. -/
def pgRowsEx : List PgRow :=
  [{ table_name := "orders", column_name := "id", data_type := "integer",
     column_default := none, is_nullable := "NO" },
   { table_name := "orders", column_name := "total", data_type := "numeric",
     column_default := some "0", is_nullable := "YES" },
   { table_name := "users", column_name := "id", data_type := "integer",
     column_default := none, is_nullable := "NO" }]

/-- C5 witness: the loop and the claimed description agree on a concrete
sorted two-table catalog. -/
theorem postgres_schema_grouping_witness :
    _get_postgres_schema pgRowsEx = pgSchemaSpec pgRowsEx :=
  postgres_schema_grouping pgRowsEx (by
    simp [pgRowsEx, List.sorted_cons, String.le_iff_toList_le]
    decide)

end Text2Sql


